import Mathlib

/-!
Verification of the XAI Sentinel risk engine (`runXaiInference` in `src/App.jsx`).

The engine is a pure function from a vitals snapshot and a symptom snapshot to a
risk probability, an ordered list of named contribution terms, a base value and a
sensitivity figure.  Numeric inputs are modelled as rationals; the probability,
which goes through the exponential, lives in the reals.  The JavaScript
`Array.prototype.sort` (stable since ES2019) is modelled by `List.insertionSort`,
which is stable.
-/

namespace XAI

/-- The vitals snapshot: the five slider-driven fields of the `vitals` state. -/
structure Vitals where
  heartRate : ℚ
  bloodPressure : ℚ
  oxygen : ℚ
  temperature : ℚ
  infectionMarker : ℚ
deriving DecidableEq

/-- The symptom snapshot: the two boolean flags of the `symptoms` state. -/
structure Symptoms where
  pain : Bool
  breathless : Bool
deriving DecidableEq

/-- One entry pushed onto `shapValues`: a feature name, a signed contribution
`phi`, and the display class derived from the sign of `phi`. -/
structure ContributionTerm where
  feature : String
  phi : ℚ
  color : String
deriving DecidableEq

/-- The object returned by `runXaiInference`. -/
structure InferenceResult where
  probability : ℝ
  baseValue : ℚ
  shapValues : List ContributionTerm
  limeSensitivity : ℚ

/-- `const baseValue = 0.18` (App.jsx line 57). -/
def baseValue : ℚ := 0.18

/-- `const hrWeight = vitals.heartRate > 100 ? (vitals.heartRate - 100) * 0.009 : -0.04`
(App.jsx line 63). -/
def hrWeight (vitals : Vitals) : ℚ :=
  if vitals.heartRate > 100 then (vitals.heartRate - 100) * 0.009 else -0.04

/-- `const bpWeight = vitals.bloodPressure < 90 ? (90 - vitals.bloodPressure) * 0.015 : -0.02`
(App.jsx line 68). -/
def bpWeight (vitals : Vitals) : ℚ :=
  if vitals.bloodPressure < 90 then (90 - vitals.bloodPressure) * 0.015 else -0.02

/-- `const o2Weight = vitals.oxygen < 94 ? (94 - vitals.oxygen) * 0.05 : -0.09`
(App.jsx line 73). -/
def o2Weight (vitals : Vitals) : ℚ :=
  if vitals.oxygen < 94 then (94 - vitals.oxygen) * 0.05 else -0.09

/-- `const infWeight = vitals.infectionMarker > 3 ? (vitals.infectionMarker - 3) * 0.08 : -0.03`
(App.jsx line 78). -/
def infWeight (vitals : Vitals) : ℚ :=
  if vitals.infectionMarker > 3 then (vitals.infectionMarker - 3) * 0.08 else -0.03

/-- The display class attached to each vital term:
`w > 0 ? 'text-red-500' : 'text-emerald-500'`. -/
def colorOf (w : ℚ) : String :=
  if w > 0 then "text-red-500" else "text-emerald-500"

/-- The `shapValues` array as built by the pushes on App.jsx lines 65-84, in
source order: the four vital terms, then the pain term when `symptoms.pain`,
then the breathless term when `symptoms.breathless`. -/
def rawShapValues (vitals : Vitals) (symptoms : Symptoms) : List ContributionTerm :=
  [⟨"Heart Rate", hrWeight vitals, colorOf (hrWeight vitals)⟩,
   ⟨"Blood Pressure", bpWeight vitals, colorOf (bpWeight vitals)⟩,
   ⟨"SpO2 Saturation", o2Weight vitals, colorOf (o2Weight vitals)⟩,
   ⟨"Infection Marker", infWeight vitals, colorOf (infWeight vitals)⟩]
  ++ (if symptoms.pain then [⟨"Pain Index", 0.14, "text-red-500"⟩] else [])
  ++ (if symptoms.breathless then [⟨"Resp. Distress", 0.25, "text-red-500"⟩] else [])

/-- The accumulated `logOdds` variable: each branch of the source adds exactly
the weight it pushes (App.jsx lines 58, 64, 69, 74, 79, 83, 84). -/
def logOdds (vitals : Vitals) (symptoms : Symptoms) : ℚ :=
  hrWeight vitals + bpWeight vitals + o2Weight vitals + infWeight vitals
    + (if symptoms.pain then 0.14 else 0) + (if symptoms.breathless then 0.25 else 0)

/-- The ordering used by `shapValues.sort((a, b) => Math.abs(b.phi) - Math.abs(a.phi))`:
`a` may precede `b` exactly when the comparator is nonpositive on `(a, b)`, that
is when `|b.phi| ≤ |a.phi|`.  The sort itself is modelled by
`List.insertionSort`, which is a stable sort, matching the stability guarantee
of `Array.prototype.sort`. -/
def absPhiGE (a b : ContributionTerm) : Prop := |b.phi| ≤ |a.phi|

instance : DecidableRel absPhiGE :=
  fun a b => inferInstanceAs (Decidable (|b.phi| ≤ |a.phi|))

instance : IsTotal ContributionTerm absPhiGE := ⟨fun _ _ => le_total _ _⟩

instance : IsTrans ContributionTerm absPhiGE := ⟨fun _ _ _ hab hbc => le_trans hbc hab⟩

/-- The engine (App.jsx lines 55-98): probability through the logistic sigmoid,
the base value, the contribution list stably sorted by descending `|phi|`, and
the two-valued sensitivity figure of line 90. -/
noncomputable def runXaiInference (vitals : Vitals) (symptoms : Symptoms) : InferenceResult :=
  { probability :=
      1 / (1 + Real.exp (-((logOdds vitals symptoms : ℝ) + (baseValue : ℝ))))
    baseValue := baseValue
    shapValues := (rawShapValues vitals symptoms).insertionSort absPhiGE
    limeSensitivity := if vitals.heartRate > 100 then 0.009 else 0.002 }

/-- The sigmoid named by the specification: `sigmoid(x) = 1/(1+e^-x)`. -/
noncomputable def sigmoid (x : ℝ) : ℝ := 1 / (1 + Real.exp (-x))

/-! ### Basic unfolding lemmas -/

theorem probability_runXai (v : Vitals) (s : Symptoms) :
    (runXaiInference v s).probability
      = 1 / (1 + Real.exp (-((logOdds v s : ℝ) + (baseValue : ℝ)))) := rfl

theorem shapValues_runXai (v : Vitals) (s : Symptoms) :
    (runXaiInference v s).shapValues
      = (rawShapValues v s).insertionSort absPhiGE := rfl

theorem shapValues_perm_raw (v : Vitals) (s : Symptoms) :
    ((runXaiInference v s).shapValues).Perm (rawShapValues v s) :=
  List.perm_insertionSort absPhiGE (rawShapValues v s)

theorem shap_filter_nil (v : Vitals) (s : Symptoms) (p : ContributionTerm → Bool)
    (h : (rawShapValues v s).filter p = []) :
    (runXaiInference v s).shapValues.filter p = [] := by
  have hperm := (shapValues_perm_raw v s).filter p
  rw [h] at hperm
  exact List.perm_nil.mp hperm

theorem shap_filter_singleton (v : Vitals) (s : Symptoms) (p : ContributionTerm → Bool)
    (t : ContributionTerm) (h : (rawShapValues v s).filter p = [t]) :
    (runXaiInference v s).shapValues.filter p = [t] := by
  have hperm := (shapValues_perm_raw v s).filter p
  rw [h] at hperm
  exact List.perm_singleton.mp hperm

theorem sum_phi_raw (v : Vitals) (s : Symptoms) :
    ((rawShapValues v s).map (fun t => t.phi)).sum = logOdds v s := by
  rcases s with ⟨p, b⟩
  cases p <;> cases b <;> simp [rawShapValues, logOdds] <;> ring

theorem sum_phi_shapValues (v : Vitals) (s : Symptoms) :
    (((runXaiInference v s).shapValues).map (fun t => t.phi)).sum = logOdds v s := by
  rw [((shapValues_perm_raw v s).map (fun t => t.phi)).sum_eq, sum_phi_raw]

/-! ### Claim theorems -/

/-- Claim C1: for every vitals snapshot and symptom snapshot, the probability
returned by `runXaiInference` equals `sigmoid` of the base value plus the sum
of the `phi` of all contribution terms in the result. -/
theorem probability_eq_sigmoid_base_add_sum_phi (v : Vitals) (s : Symptoms) :
    (runXaiInference v s).probability
      = sigmoid (((runXaiInference v s).baseValue : ℝ)
          + (((((runXaiInference v s).shapValues).map (fun t => t.phi)).sum : ℚ) : ℝ)) := by
  rw [probability_runXai, sum_phi_shapValues, sigmoid]
  have hb : (runXaiInference v s).baseValue = baseValue := rfl
  rw [hb, add_comm ((baseValue : ℝ)) _]

/-- Claim C2: in every result, the four vital-derived contribution terms carry
exactly the piecewise `phi` values of the feature-term table. -/
theorem vital_terms_phi (v : Vitals) (s : Symptoms) :
    (((runXaiInference v s).shapValues.filter
        (fun t => t.feature == "Heart Rate")).map (fun t => t.phi)
      = [if v.heartRate > 100 then (v.heartRate - 100) * 0.009 else -0.04])
    ∧ (((runXaiInference v s).shapValues.filter
        (fun t => t.feature == "Blood Pressure")).map (fun t => t.phi)
      = [if v.bloodPressure < 90 then (90 - v.bloodPressure) * 0.015 else -0.02])
    ∧ (((runXaiInference v s).shapValues.filter
        (fun t => t.feature == "SpO2 Saturation")).map (fun t => t.phi)
      = [if v.oxygen < 94 then (94 - v.oxygen) * 0.05 else -0.09])
    ∧ (((runXaiInference v s).shapValues.filter
        (fun t => t.feature == "Infection Marker")).map (fun t => t.phi)
      = [if v.infectionMarker > 3 then (v.infectionMarker - 3) * 0.08 else -0.03]) := by
  refine ⟨?_, ?_, ?_, ?_⟩
  · rw [shap_filter_singleton v s _ ⟨"Heart Rate", hrWeight v, colorOf (hrWeight v)⟩ ?_]
    · simp [hrWeight]
    · rcases s with ⟨p, b⟩; cases p <;> cases b <;> simp [rawShapValues]
  · rw [shap_filter_singleton v s _ ⟨"Blood Pressure", bpWeight v, colorOf (bpWeight v)⟩ ?_]
    · simp [bpWeight]
    · rcases s with ⟨p, b⟩; cases p <;> cases b <;> simp [rawShapValues]
  · rw [shap_filter_singleton v s _ ⟨"SpO2 Saturation", o2Weight v, colorOf (o2Weight v)⟩ ?_]
    · simp [o2Weight]
    · rcases s with ⟨p, b⟩; cases p <;> cases b <;> simp [rawShapValues]
  · rw [shap_filter_singleton v s _ ⟨"Infection Marker", infWeight v, colorOf (infWeight v)⟩ ?_]
    · simp [infWeight]
    · rcases s with ⟨p, b⟩; cases p <;> cases b <;> simp [rawShapValues]

/-- Claim C3: the Pain Index term (phi = 0.14) is in the contributions exactly
when `symptoms.pain` is true, and the Resp. Distress term (phi = 0.25) exactly
when `symptoms.breathless` is true; a false flag omits the term entirely. -/
theorem symptom_terms_iff (v : Vitals) (s : Symptoms) :
    ((runXaiInference v s).shapValues.filter (fun t => t.feature == "Pain Index")
      = if s.pain then [⟨"Pain Index", 0.14, "text-red-500"⟩] else [])
    ∧ ((runXaiInference v s).shapValues.filter (fun t => t.feature == "Resp. Distress")
      = if s.breathless then [⟨"Resp. Distress", 0.25, "text-red-500"⟩] else []) := by
  rcases s with ⟨p, b⟩
  constructor
  · cases p
    · rw [if_neg (by simp)]
      apply shap_filter_nil
      cases b <;> simp [rawShapValues]
    · rw [if_pos rfl]
      apply shap_filter_singleton
      cases b <;> simp [rawShapValues]
  · cases b
    · rw [if_neg (by simp)]
      apply shap_filter_nil
      cases p <;> simp [rawShapValues]
    · rw [if_pos rfl]
      apply shap_filter_singleton
      cases p <;> simp [rawShapValues]

/-- Claim C4: the contributions always hold the four vital terms plus one term
per true symptom flag, so the length is 4, 5 or 6 according to the flags. -/
theorem shapValues_length (v : Vitals) (s : Symptoms) :
    (runXaiInference v s).shapValues.length
      = 4 + (if s.pain then 1 else 0) + (if s.breathless then 1 else 0) := by
  rw [shapValues_runXai, List.length_insertionSort]
  rcases s with ⟨p, b⟩
  cases p <;> cases b <;> simp [rawShapValues]

/-- Claim C7: the engine is total over its rational inputs and the probability
it returns always lies strictly between 0 and 1. -/
theorem probability_mem_open_unit_interval (v : Vitals) (s : Symptoms) :
    0 < (runXaiInference v s).probability ∧ (runXaiInference v s).probability < 1 := by
  rw [probability_runXai]
  have he : 0 < Real.exp (-((logOdds v s : ℝ) + (baseValue : ℝ))) := Real.exp_pos _
  constructor
  · positivity
  · rw [div_lt_one (by positivity)]
    linarith

/-- Claim C6: for every input, `limeSensitivity` equals `0.009` if
`heartRate > 100` and `0.002` otherwise; the formula reads no input other than
the heart rate. -/
theorem limeSensitivity_eq (v : Vitals) (s : Symptoms) :
    (runXaiInference v s).limeSensitivity
      = if v.heartRate > 100 then 0.009 else 0.002 := rfl

/-- Claim C9: changing only the `temperature` field of the vitals leaves the
whole inference result unchanged: probability, contributions and sensitivity
never read the temperature. -/
theorem temperature_has_no_influence (v : Vitals) (t : ℚ) (s : Symptoms) :
    runXaiInference { v with temperature := t } s = runXaiInference v s := rfl

/-- Claim C5: for every input the contributions are sorted in descending order
of `|phi|`, and the sort is stable: any two terms of equal `|phi|` keep the
relative order they had in the insertion-ordered list (vitals in table order,
then pain, then breathless). -/
theorem shapValues_sorted_and_stable (v : Vitals) (s : Symptoms) :
    ((runXaiInference v s).shapValues.Pairwise (fun x y => |y.phi| ≤ |x.phi|))
    ∧ ∀ a b : ContributionTerm, List.Sublist [a, b] (rawShapValues v s) →
        |a.phi| = |b.phi| → List.Sublist [a, b] ((runXaiInference v s).shapValues) := by
  constructor
  · rw [shapValues_runXai]
    exact (List.sorted_insertionSort absPhiGE (rawShapValues v s)).imp (fun h => h)
  · intro a b hsub habs
    rw [shapValues_runXai]
    exact List.pair_sublist_insertionSort habs.ge hsub

theorem shapValues_sorted_and_stable_witness :
    ((runXaiInference ⟨80, 120, 98, 37, 3.5⟩ ⟨false, false⟩).shapValues.Pairwise
        (fun x y => |y.phi| ≤ |x.phi|))
    ∧ List.Sublist
        [⟨"Heart Rate", -0.04, "text-emerald-500"⟩, ⟨"Infection Marker", 0.04, "text-red-500"⟩]
        ((runXaiInference ⟨80, 120, 98, 37, 3.5⟩ ⟨false, false⟩).shapValues) :=
  ⟨(shapValues_sorted_and_stable ⟨80, 120, 98, 37, 3.5⟩ ⟨false, false⟩).1,
   (shapValues_sorted_and_stable ⟨80, 120, 98, 37, 3.5⟩ ⟨false, false⟩).2
    ⟨"Heart Rate", -0.04, "text-emerald-500"⟩ ⟨"Infection Marker", 0.04, "text-red-500"⟩
    (by
      have hraw : rawShapValues ⟨80, 120, 98, 37, 3.5⟩ ⟨false, false⟩
          = [⟨"Heart Rate", -0.04, "text-emerald-500"⟩,
             ⟨"Blood Pressure", -0.02, "text-emerald-500"⟩,
             ⟨"SpO2 Saturation", -0.09, "text-emerald-500"⟩,
             ⟨"Infection Marker", 0.04, "text-red-500"⟩] := by
        norm_num [rawShapValues, hrWeight, bpWeight, o2Weight, infWeight, colorOf]
      rw [hraw]
      exact List.Sublist.cons₂ _ (List.Sublist.cons _ (List.Sublist.cons _ (List.Sublist.refl _))))
    (by norm_num [abs_of_nonneg])⟩

/-- Claim C8: on the resting baseline input (heartRate 80, bloodPressure 120,
oxygen 98, temperature 37, infectionMarker 1, both symptom flags false) the
four contribution terms are the negative values −0.09, −0.04, −0.03, −0.02
(descending `|phi|` order), the log-odds sum is −0.18, and the probability is
exactly 0.5. -/
theorem baseline_scenario :
    (((runXaiInference ⟨80, 120, 98, 37, 1⟩ ⟨false, false⟩).shapValues.map (fun t => t.phi))
        = [-0.09, -0.04, -0.03, -0.02])
    ∧ logOdds ⟨80, 120, 98, 37, 1⟩ ⟨false, false⟩ = -0.18
    ∧ (runXaiInference ⟨80, 120, 98, 37, 1⟩ ⟨false, false⟩).probability = 0.5 := by
  refine ⟨?_, ?_, ?_⟩
  · have hraw : rawShapValues ⟨80, 120, 98, 37, 1⟩ ⟨false, false⟩
        = [⟨"Heart Rate", -0.04, "text-emerald-500"⟩,
           ⟨"Blood Pressure", -0.02, "text-emerald-500"⟩,
           ⟨"SpO2 Saturation", -0.09, "text-emerald-500"⟩,
           ⟨"Infection Marker", -0.03, "text-emerald-500"⟩] := by
      norm_num [rawShapValues, hrWeight, bpWeight, o2Weight, infWeight, colorOf]
    rw [shapValues_runXai, hraw]
    norm_num [List.insertionSort, List.orderedInsert, absPhiGE, abs_of_nonneg]
  · norm_num [logOdds, hrWeight, bpWeight, o2Weight, infWeight]
  · have h : logOdds ⟨80, 120, 98, 37, 1⟩ ⟨false, false⟩ = -0.18 := by
      norm_num [logOdds, hrWeight, bpWeight, o2Weight, infWeight]
    rw [probability_runXai, h]
    simp only [baseValue]
    norm_num [Real.exp_zero]

/-- Claim C10: with all other inputs fixed, the probability is monotonically
non-decreasing in the heart rate. -/
theorem probability_monotone_in_heartRate (v₁ v₂ : Vitals) (s : Symptoms)
    (hbp : v₁.bloodPressure = v₂.bloodPressure) (hox : v₁.oxygen = v₂.oxygen)
    (_htemp : v₁.temperature = v₂.temperature) (hinf : v₁.infectionMarker = v₂.infectionMarker)
    (hhr : v₁.heartRate ≤ v₂.heartRate) :
    (runXaiInference v₁ s).probability ≤ (runXaiInference v₂ s).probability := by
  have hw : hrWeight v₁ ≤ hrWeight v₂ := by
    unfold hrWeight
    rcases le_or_lt 100 v₂.heartRate with h₂ | h₂
    · rcases le_or_lt v₁.heartRate 100 with h₁ | h₁
      · rw [if_neg (not_lt.mpr h₁)]
        rcases lt_or_eq_of_le h₂ with h₂' | h₂'
        · rw [if_pos h₂']
          have hnn : (0 : ℚ) ≤ (v₂.heartRate - 100) * 0.009 :=
            mul_nonneg (by linarith) (by norm_num)
          linarith
        · rw [if_neg (by rw [← h₂']; exact lt_irrefl _)]
      · rw [if_pos h₁, if_pos (lt_of_lt_of_le h₁ hhr)]
        exact mul_le_mul_of_nonneg_right (by linarith) (by norm_num)
    · rw [if_neg (not_lt.mpr (le_of_lt h₂)), if_neg (not_lt.mpr (le_of_lt (lt_of_le_of_lt hhr h₂)))]
  have hlo : logOdds v₁ s ≤ logOdds v₂ s := by
    unfold logOdds
    rw [show bpWeight v₁ = bpWeight v₂ by unfold bpWeight; rw [hbp],
      show o2Weight v₁ = o2Weight v₂ by unfold o2Weight; rw [hox],
      show infWeight v₁ = infWeight v₂ by unfold infWeight; rw [hinf]]
    linarith
  rw [probability_runXai, probability_runXai]
  have hc : ((logOdds v₁ s : ℚ) : ℝ) ≤ ((logOdds v₂ s : ℚ) : ℝ) := by exact_mod_cast hlo
  have he : Real.exp (-((logOdds v₂ s : ℝ) + (baseValue : ℝ)))
      ≤ Real.exp (-((logOdds v₁ s : ℝ) + (baseValue : ℝ))) :=
    Real.exp_le_exp.mpr (by linarith)
  have hpos : (0 : ℝ) < 1 + Real.exp (-((logOdds v₂ s : ℝ) + (baseValue : ℝ))) := by positivity
  exact one_div_le_one_div_of_le hpos (by linarith)

theorem probability_monotone_in_heartRate_witness :
    (runXaiInference ⟨80, 120, 98, 37, 1⟩ ⟨false, false⟩).probability
      ≤ (runXaiInference ⟨130, 120, 98, 37, 1⟩ ⟨false, false⟩).probability :=
  probability_monotone_in_heartRate ⟨80, 120, 98, 37, 1⟩ ⟨130, 120, 98, 37, 1⟩
    ⟨false, false⟩ rfl rfl rfl rfl (by norm_num)

end XAI
